import Mathlib

/-!
Verification of the flashcard client (src/static/script.js) against its
specification.  The script is single-threaded and callback-driven; each
synchronous run-to-completion segment of the relevant functions is embedded
as a pure Lean function on an explicit state record, with the outcome of
each network request or media event supplied as an explicit parameter.
Times and durations are modelled as rationals, DOM class sets as finite
sets of element indices.
-/

namespace Flashcards

/-- One definition record of a card (script.js data model:
`meaning`, `usage_example`, `usage_example_es`, `alternative_example`). -/
structure Definition where
  meaning : String
  usage_example : String
  usage_example_es : String
  alternative_example : Option String
deriving Repr, DecidableEq

/-- One flashcard as held in `masterFlashcardsData` after `loadData`
assigned it an `id` (its index in the master array).  Fields that the
script reads: `id`, `name`, `phonetic`, `is_phrasal_verb`, `learned`,
`imagePath`, `category`, `deck_name`, `definitions`. -/
structure Card where
  id : Nat
  name : String
  phonetic : String
  is_phrasal_verb : Bool
  learned : Bool
  imagePath : Option String
  category : Option String
  deck_name : Option String
  definitions : List Definition
deriving Repr, DecidableEq

/-- The module-level mutable state of script.js that the collection /
session claims are about: the two card arrays, the cursor, the delete
confirmation guard (`awaitingDeleteConfirmation` plus whether its
5-second timer is armed), the navigation lock driven by
`toggleNavigation`, the last `showAppMessage` text and error flag, and
whether `displayCompletionMessage` has replaced the card area.
Audio-player state is modelled separately (`PlayerState` below), matching
the spec's component split. -/
structure AppState where
  masterFlashcardsData : List Card
  filteredFlashcardsData : List Card
  currentIndex : Nat
  awaitingDeleteConfirmation : Bool
  deleteTimerArmed : Bool
  navDisabled : Bool
  message : Option String
  messageIsError : Bool
  completionShown : Bool
deriving Repr, DecidableEq

/-- `data.map((card, index) => ({ ...card, id: index }))` (script.js line
479), written with an explicit running index. -/
def assignIdsFrom : Nat → List Card → List Card
  | _, [] => []
  | i, c :: rest => { c with id := i } :: assignIdsFrom (i + 1) rest

/-- Ids 0,1,2,... assigned in input order at load time. -/
def assignIds (data : List Card) : List Card :=
  assignIdsFrom 0 data

/-- `masterFlashcardsData.filter(card => !card.learned)` (script.js lines
407 and 480). -/
def deriveFiltered (master : List Card) : List Card :=
  master.filter (fun c => !c.learned)

/-- `displayCompletionMessage()` (script.js lines 367-372): replaces the
card area with the congratulation banner and hides navigation. -/
def displayCompletionMessage (st : AppState) : AppState :=
  { st with completionShown := true }

/-- The synchronous prefix of `loadCard(index, autoPlay)` (script.js lines
239-265): early-return to the completion banner on an empty filtered
list, otherwise reset the delete-confirmation guard, disarm its timer,
set the cursor, disable navigation and show the loading message.  DOM
templating and the subsequent asynchronous image resolution are outside
the modelled state (the image path is modelled by `generateAndLoadImage`
below). -/
def loadCardSync (st : AppState) (index : Nat) : AppState :=
  if st.filteredFlashcardsData.length = 0 then
    displayCompletionMessage st
  else
    { st with
      awaitingDeleteConfirmation := false
      deleteTimerArmed := false
      currentIndex := index
      navDisabled := true
      message := some "Cargando tarjeta..."
      messageIsError := false }

/-- Initial values of the module-level variables (script.js lines 1-9). -/
def initialAppState : AppState :=
  { masterFlashcardsData := []
    filteredFlashcardsData := []
    currentIndex := 0
    awaitingDeleteConfirmation := false
    deleteTimerArmed := false
    navDisabled := false
    message := none
    messageIsError := false
    completionShown := false }

/-- The state-mutating tail of `loadData()` on a successful fetch
(script.js lines 479-486): assign ids, derive the filtered list, then
either load card `currentIndex` (initially 0) or show the completion
banner. -/
def loadData (data : List Card) : AppState :=
  let master := assignIds data
  let filtered := deriveFiltered master
  let st := { initialAppState with
              masterFlashcardsData := master
              filteredFlashcardsData := filtered }
  if 0 < filtered.length then
    loadCardSync st st.currentIndex
  else
    displayCompletionMessage st

/-- Outcome of the `fetch` of `/api/update-status` inside
`markAsLearned` as the code distinguishes them: a 2xx response, a non-2xx
response (`!response.ok`, thrown message fixed by the code), or a
rejected request carrying the rejection message. -/
inductive FetchResult where
  | ok : FetchResult
  | notOk : FetchResult
  | rejected : String → FetchResult
deriving Repr, DecidableEq

/-- Result of one `markAsLearned` call: the state at the end of the
call, whether the backend request was actually issued, and whether the
call died on an uncaught exception (reading `.id` of an undefined
current card, script.js line 393, which sits outside the try block —
unreachable while the cursor invariant holds). -/
structure MarkResult where
  state : AppState
  requestIssued : Bool
  crashed : Bool
deriving Repr, DecidableEq

/-- `markAsLearned(event)` (script.js lines 385-424) with the backend
outcome made explicit.  Empty filtered list: immediate return.  Otherwise
navigation is disabled and the progress message shown; on a 2xx response
the master card is marked learned in place, the filtered list re-derived,
the cursor recomputed (`nextIndex`, clamped with `Math.max(0, ...)`) and
either `loadCard` runs or the completion banner is shown; on failure the
catch block reports the error and re-enables navigation, touching no
collection state. -/
def markAsLearned (st : AppState) (outcome : FetchResult) : MarkResult :=
  if st.filteredFlashcardsData.length = 0 then
    ⟨st, false, false⟩
  else
    let st1 := { st with
                 navDisabled := true
                 message := some "✅ Marcando como aprendida..."
                 messageIsError := false }
    match st1.filteredFlashcardsData.get? st1.currentIndex with
    | none => ⟨st1, false, true⟩
    | some currentCard =>
      let masterIndex := currentCard.id
      let fail (m : String) : MarkResult :=
        ⟨{ st1 with
           message := some ("❌ Error: " ++ m)
           messageIsError := true
           navDisabled := false }, true, false⟩
      match outcome with
      | .notOk => fail "Error al actualizar el estado en el servidor."
      | .rejected m => fail m
      | .ok =>
        match st1.masterFlashcardsData.get? masterIndex with
        | none =>
          -- a TypeError inside the try block lands in the same catch
          fail "TypeError"
        | some mc =>
          let master2 := st1.masterFlashcardsData.set masterIndex
                           { mc with learned := true }
          let filtered2 := deriveFiltered master2
          let nextIndex :=
            if filtered2.length ≤ st1.currentIndex then
              filtered2.length - 1
            else st1.currentIndex
          let st2 := { st1 with
                       masterFlashcardsData := master2
                       filteredFlashcardsData := filtered2 }
          if 0 < filtered2.length then
            ⟨loadCardSync st2 (max 0 nextIndex), true, false⟩
          else
            ⟨displayCompletionMessage st2, true, false⟩

/-- Writing `imagePath` through a card reference shared by both arrays
(script.js mutates the card object in place): the same field update is
applied at the given position of a list. -/
def setImagePathAt (l : List Card) (i : Nat) (p : Option String) : List Card :=
  match l.get? i with
  | none => l
  | some c => l.set i { c with imagePath := p }

/-- Outcome of the `fetch` of `/api/delete-image` inside `deleteImage`:
2xx, non-2xx (`!response.ok`, thrown message fixed by the code), or a
rejected request carrying the rejection message. -/
inductive DeleteOutcome where
  | ok : DeleteOutcome
  | notOk : DeleteOutcome
  | rejected : String → DeleteOutcome
deriving Repr, DecidableEq

/-- `deleteImage(event)` (script.js lines 330-364) with the backend
outcome explicit.  Returns the new state and whether this call was the
confirming click (the one that performs the destructive action).  First
click: arm the guard and its 5-second timer, warn, do nothing
destructive.  Confirming click: disarm the timer, clear the guard,
disable navigation, issue the delete request; on success clear the
shared card object's `imagePath` (visible through both arrays) and run
`loadCard(currentIndex, true)`; on failure report and re-enable
navigation. -/
def deleteImage (st : AppState) (outcome : DeleteOutcome) : AppState × Bool :=
  if st.awaitingDeleteConfirmation then
    let st1 := { st with
                 awaitingDeleteConfirmation := false
                 deleteTimerArmed := false
                 message := some "🗑️ Eliminando y regenerando..."
                 messageIsError := false
                 navDisabled := true }
    let fail (m : String) : AppState × Bool :=
      ({ st1 with
         message := some ("❌ Error: " ++ m)
         messageIsError := true
         navDisabled := false }, true)
    match st1.filteredFlashcardsData.get? st1.currentIndex with
    | none =>
      -- a TypeError reading `.id` inside the try block lands in the catch
      fail "TypeError"
    | some currentCard =>
      match outcome with
      | .notOk => fail "No se pudo eliminar la imagen."
      | .rejected m => fail m
      | .ok =>
        let st2 := { st1 with
                     masterFlashcardsData :=
                       setImagePathAt st1.masterFlashcardsData currentCard.id none
                     filteredFlashcardsData :=
                       setImagePathAt st1.filteredFlashcardsData st1.currentIndex none }
        (loadCardSync st2 st2.currentIndex, true)
  else
    ({ st with
       awaitingDeleteConfirmation := true
       deleteTimerArmed := true
       message := some "⚠️ Haz clic de nuevo en 🗑️ para confirmar."
       messageIsError := true }, false)

/-- The `setTimeout` callback armed by the first `deleteImage` click
(script.js lines 357-362): after 5000 ms, if still awaiting, silently
reset the guard.  Firing consumes the timer either way. -/
def deleteConfirmationTimeoutFire (st : AppState) : AppState :=
  if st.awaitingDeleteConfirmation then
    { st with
      awaitingDeleteConfirmation := false
      deleteTimerArmed := false
      message := some "Confirmación cancelada."
      messageIsError := false }
  else
    { st with deleteTimerArmed := false }

/-- Bool check that a card list carries the load-time id assignment:
the card at position `i` has `id = k + i`. -/
def idInvB : Nat → List Card → Bool
  | _, [] => true
  | k, c :: rest => decide (c.id = k) && idInvB (k + 1) rest

/-- The id invariant of the master array: every card's `id` is its
position (spec §3, established by `loadData`). -/
def IdInv (l : List Card) : Prop :=
  idInvB 0 l = true

/-- The collection invariant the spec states for `active`/`master`: the
filtered list is the stable filter of the master list by `!learned`,
and master ids are positions. -/
def ColInv (st : AppState) : Prop :=
  st.filteredFlashcardsData = deriveFiltered st.masterFlashcardsData ∧
  IdInv st.masterFlashcardsData

/-- A full history of the collection-mutating operations the spec
quantifies over: one initial load followed by any number of
`markAsLearned` calls with arbitrary backend outcomes. -/
def applyOps (data : List Card) (ops : List FetchResult) : AppState :=
  ops.foldl (fun st o => (markAsLearned st o).state) (loadData data)

/-- `nextCard()` (script.js lines 446-450): circular forward navigation,
no-op on an empty filtered list. -/
def nextCard (st : AppState) : AppState :=
  if 0 < st.filteredFlashcardsData.length then
    loadCardSync st ((st.currentIndex + 1) % st.filteredFlashcardsData.length)
  else st

/-- `prevCard()` (script.js lines 452-456): circular backward navigation,
no-op on an empty filtered list. -/
def prevCard (st : AppState) : AppState :=
  if 0 < st.filteredFlashcardsData.length then
    loadCardSync st
      ((st.currentIndex + st.filteredFlashcardsData.length - 1) %
        st.filteredFlashcardsData.length)
  else st

/-- A sample definition record used by the concrete witness states. -/
def sampleDefinition : Definition :=
  { meaning := "to depart"
    usage_example := "The plane took off"
    usage_example_es := "El avion despego"
    alternative_example := none }

/-- Sample card A of the spec scenario (three not-learned cards). -/
def cardA : Card :=
  { id := 0
    name := "take off"
    phonetic := "teIk Qf"
    is_phrasal_verb := true
    learned := false
    imagePath := some "/images/a.png"
    category := some "phrasal_verbs"
    deck_name := some "deck1"
    definitions := [sampleDefinition] }

/-- Sample card B of the spec scenario. -/
def cardB : Card :=
  { cardA with name := "give up", imagePath := none }

/-- Sample card C of the spec scenario. -/
def cardC : Card :=
  { cardA with name := "look after" }

/-- The spec scenario state: three not-learned cards loaded, cursor on
the middle one. -/
def stScenario : AppState :=
  { loadData [cardA, cardB, cardC] with currentIndex := 1 }

end Flashcards

namespace Playback

open Flashcards

/-- `const SYNC_OFFSET = 0.15` (script.js line 12). -/
def SYNC_OFFSET : ℚ := 15 / 100

/-- The per-session highlight variables of `playAudioFromApi`:
`lastHighlightedIndex` (a JS number, -1 meaning none yet) and the set of
word-span element indices currently carrying the `highlighted-word`
class. -/
structure SessionState where
  lastHighlightedIndex : ℤ
  highlighted : Finset ℕ
deriving DecidableEq

/-- `let lastHighlightedIndex = -1` (script.js line 104) with no span
highlighted. -/
def initialSession : SessionState :=
  ⟨-1, ∅⟩

/-- The `ontimeupdate` handler body (script.js lines 111-124) at one
time-progress notification with elapsed time `t`:
`currentWordIndex = Math.floor((t + SYNC_OFFSET) / timePerWord)`; if it
changed, remove the class from the previous span when that span exists
(`lastHighlightedIndex >= 0 && wordSpans[lastHighlightedIndex]`), add it
to the new span when `0 <= currentWordIndex < wordSpans.length`, and
record the new index. -/
def timeUpdate (wordCount : ℕ) (timePerWord : ℚ) (t : ℚ)
    (s : SessionState) : SessionState :=
  let currentTime := t + SYNC_OFFSET
  let currentWordIndex : ℤ := Int.floor (currentTime / timePerWord)
  if currentWordIndex ≠ s.lastHighlightedIndex then
    let h1 :=
      if 0 ≤ s.lastHighlightedIndex ∧ s.lastHighlightedIndex < (wordCount : ℤ) then
        s.highlighted.erase s.lastHighlightedIndex.toNat
      else s.highlighted
    let h2 :=
      if 0 ≤ currentWordIndex ∧ currentWordIndex < (wordCount : ℤ) then
        insert currentWordIndex.toNat h1
      else h1
    ⟨currentWordIndex, h2⟩
  else s

/-- A whole uninterrupted session: the handler fired once per time in
`ts`, starting from the fresh per-session state. -/
def runSession (wordCount : ℕ) (timePerWord : ℚ) (ts : List ℚ) : SessionState :=
  ts.foldl (fun s t => timeUpdate wordCount timePerWord t s) initialSession

/-- The `onloadedmetadata` handler body (script.js lines 106-110): with
the metadata-supplied duration (`none` models an unavailable / NaN
duration) and the word count, either install the `ontimeupdate` handler
with its per-word duration (`some timePerWord`) or return without
installing anything (`none`) when `!audioDuration` or
`wordSpans.length === 0`. -/
def onLoadedMetadata (audioDuration : Option ℚ) (wordCount : ℕ) : Option ℚ :=
  match audioDuration with
  | none => none
  | some d => if d = 0 ∨ wordCount = 0 then none else some (d / wordCount)

/-- Invariant of the per-session highlight state: the set of highlighted
spans is exactly the last recorded index when that index addresses an
existing span, and empty otherwise. -/
def SessionInv (wordCount : ℕ) (s : SessionState) : Prop :=
  s.highlighted =
    if 0 ≤ s.lastHighlightedIndex ∧ s.lastHighlightedIndex < (wordCount : ℤ) then
      {s.lastHighlightedIndex.toNat}
    else ∅

/-- The audio player's observable state across sessions: whether the
`isAudioPlaying` flag is set, whether the output has been paused, which
session's handler (if any) each of the three handler slots holds, and
the set of word elements carrying the `highlighted-word` class. -/
structure PlayerState where
  isAudioPlaying : Bool
  paused : Bool
  ontimeupdateHandler : Option ℕ
  onloadedmetadataHandler : Option ℕ
  onendedHandler : Option ℕ
  highlightedWords : Finset ℕ
deriving DecidableEq

/-- The supersede prologue of `playAudioFromApi` (script.js lines
44-51): pause the output if `isAudioPlaying`, clear the flag, null out
`ontimeupdate`, and strip the `highlighted-word` class from every
element.  The `onloadedmetadata` and `onended` slots are not touched
here. -/
def playPrologue (p : PlayerState) : PlayerState :=
  let p1 := if p.isAudioPlaying then { p with paused := true } else p
  { p1 with
    isAudioPlaying := false
    ontimeupdateHandler := none
    highlightedWords := ∅ }

/-- A player mid-session: session 0 playing with all three handlers
attached and word 3 highlighted.  Concrete input for the supersede
analysis. -/
def activeSessionPlayer : PlayerState :=
  { isAudioPlaying := true
    paused := false
    ontimeupdateHandler := some 0
    onloadedmetadataHandler := some 0
    onendedHandler := some 0
    highlightedWords := {3} }

end Playback

namespace ImageGen

/-- The UI flags `generateAndLoadImage` manipulates: the navigation lock,
the loading spinner, the `loading` class on the card, the image and
delete-button visibility, and the status message. -/
structure UIState where
  navDisabled : Bool
  loadingGifShown : Bool
  cardLoadingClass : Bool
  imageShown : Bool
  deleteButtonShown : Bool
  message : Option String
  messageIsError : Bool
deriving Repr, DecidableEq

/-- Outcome of `generateAndLoadImage`'s request/response/resource chain:
2xx whose returned image loads, 2xx whose returned image fails to load,
non-2xx with the `detail` the rejection handler resolves, or a rejected
`fetch`. -/
inductive GenImageOutcome where
  | okImageLoads : String → GenImageOutcome
  | okImageLoadFails : String → GenImageOutcome
  | httpError : String → GenImageOutcome
  | fetchRejected : GenImageOutcome
deriving Repr, DecidableEq

/-- Result of one `generateAndLoadImage` run: the UI flags afterwards,
the value written to the current card's `imagePath` (if the success
handler ran that far), and whether the run ended in an uncaught
exception. -/
structure GenResult where
  ui : UIState
  imagePathWritten : Option String
  crashed : Bool
deriving Repr, DecidableEq

/-- `generateAndLoadImage(card)` (script.js lines 290-328) with the
request outcome explicit.  On a 2xx response the card's `imagePath` is
written immediately and `tempImg.onload` finishes the UI on load
success; no `tempImg.onerror` is installed, so on load failure nothing
further runs and the flags stay as they were.  On a non-2xx response the
catch callback reports `error.detail` and re-enables navigation.  On a
rejected `fetch` the rejection value is an Error, so
`errorPromise.catch` inside the catch callback is not a function and the
callback itself dies (`crashed`), running none of its recovery code. -/
def generateAndLoadImage (st : UIState) (outcome : GenImageOutcome) : GenResult :=
  let st0 := { st with
               cardLoadingClass := true
               message := some "⏳ Generando imagen de IA..."
               messageIsError := false }
  match outcome with
  | .okImageLoads path =>
    ⟨{ st0 with
       imageShown := true
       deleteButtonShown := true
       loadingGifShown := false
       cardLoadingClass := false
       message := some "¡Imagen generada!"
       messageIsError := false
       navDisabled := false }, some path, false⟩
  | .okImageLoadFails path =>
    ⟨st0, some path, false⟩
  | .httpError detail =>
    ⟨{ st0 with
       message := some ("❌ Error de IA: " ++ detail)
       messageIsError := true
       loadingGifShown := false
       navDisabled := false
       cardLoadingClass := false }, none, false⟩
  | .fetchRejected =>
    ⟨st0, none, true⟩

/-- The UI flags at the moment `loadCard` hands over to
`generateAndLoadImage` (script.js lines 252-265): navigation disabled,
spinner shown, image and delete button hidden. -/
def uiAfterLoadCardStart : UIState :=
  { navDisabled := true
    loadingGifShown := true
    cardLoadingClass := false
    imageShown := false
    deleteButtonShown := false
    message := some "Cargando tarjeta..."
    messageIsError := false }

end ImageGen

open Flashcards Playback ImageGen

/-! Helper lemmas. -/

theorem mem_exists_get? {α : Type} {l : List α} {d : α} (h : d ∈ l) :
    ∃ j, l.get? j = some d := by
  obtain ⟨n, hn⟩ := List.mem_iff_get.mp h
  exact ⟨n.val, by rw [List.get?_eq_get n.isLt, hn]⟩

theorem get?_lt_length {α : Type} {l : List α} {i : Nat} {d : α}
    (h : l.get? i = some d) : i < l.length := by
  by_contra hge
  rw [List.get?_eq_none.mpr (by omega)] at h
  exact Option.noConfusion h

theorem idInvB_get? {l : List Card} {k i : Nat} {c : Card}
    (h : idInvB k l = true) (hc : l.get? i = some c) : c.id = k + i := by
  induction l generalizing k i with
  | nil => exact Option.noConfusion hc
  | cons a tl ih =>
    rw [idInvB, Bool.and_eq_true, decide_eq_true_eq] at h
    cases i with
    | zero =>
      cases hc
      omega
    | succ j =>
      have := ih h.2 hc
      omega

theorem idInvB_set {l : List Card} {k i : Nat} {c : Card}
    (h : idInvB k l = true) (hid : c.id = k + i) :
    idInvB k (l.set i c) = true := by
  induction l generalizing k i with
  | nil => exact h
  | cons a tl ih =>
    rw [idInvB, Bool.and_eq_true, decide_eq_true_eq] at h
    cases i with
    | zero =>
      rw [List.set, idInvB, Bool.and_eq_true, decide_eq_true_eq]
      exact ⟨by omega, h.2⟩
    | succ j =>
      rw [List.set, idInvB, Bool.and_eq_true, decide_eq_true_eq]
      exact ⟨h.1, ih h.2 (by omega)⟩

theorem idInvB_assignIdsFrom (k : Nat) (data : List Card) :
    idInvB k (assignIdsFrom k data) = true := by
  induction data generalizing k with
  | nil => rfl
  | cons c rest ih =>
    rw [assignIdsFrom, idInvB, Bool.and_eq_true, decide_eq_true_eq]
    exact ⟨rfl, ih (k + 1)⟩

theorem idInvB_pairwise {l : List Card} {k : Nat} (h : idInvB k l = true) :
    List.Pairwise (fun a b => a.id < b.id) l := by
  induction l generalizing k with
  | nil => exact List.Pairwise.nil
  | cons a tl ih =>
    rw [idInvB, Bool.and_eq_true, decide_eq_true_eq] at h
    refine List.Pairwise.cons ?_ (ih h.2)
    intro d hd
    obtain ⟨j, hj⟩ := mem_exists_get? hd
    have := idInvB_get? h.2 hj
    omega

theorem filter_set_learned_length {l : List Card} {i : Nat} {c : Card}
    (hc : l.get? i = some c) (hl : c.learned = false) :
    (deriveFiltered (l.set i { c with learned := true })).length + 1
      = (deriveFiltered l).length := by
  induction l generalizing i with
  | nil => exact Option.noConfusion hc
  | cons a tl ih =>
    cases i with
    | zero =>
      cases hc
      simp [deriveFiltered, List.set, List.filter_cons, hl]
    | succ j =>
      have := ih hc
      by_cases ha : a.learned <;>
        simp [deriveFiltered, List.set, List.filter_cons, ha] at this ⊢ <;>
        omega

theorem filter_set_learned_not_mem {l : List Card} {i : Nat} {c : Card} {k : Nat}
    (hinv : idInvB k l = true) (hc : l.get? i = some c) :
    ∀ d ∈ deriveFiltered (l.set i { c with learned := true }), d.id ≠ c.id := by
  intro d hd
  have hd' := List.mem_filter.mp hd
  obtain ⟨j, hj⟩ := mem_exists_get? hd'.1
  have hcid : c.id = k + i := idInvB_get? hinv hc
  by_cases hji : j = i
  · subst hji
    rw [List.get?_set_eq, hc] at hj
    cases hj
    simp at hd'
  · have hij : i ≠ j := fun he => hji he.symm
    rw [List.get?_set_ne _ _ hij] at hj
    have := idInvB_get? hinv hj
    omega

theorem loadCardSync_master (st : AppState) (i : Nat) :
    (loadCardSync st i).masterFlashcardsData = st.masterFlashcardsData := by
  rw [loadCardSync]
  split <;> rfl

theorem loadCardSync_filtered (st : AppState) (i : Nat) :
    (loadCardSync st i).filteredFlashcardsData = st.filteredFlashcardsData := by
  rw [loadCardSync]
  split <;> rfl

theorem colInv_loadData (data : List Card) : ColInv (loadData data) := by
  have hbase : ColInv { initialAppState with
      masterFlashcardsData := assignIds data
      filteredFlashcardsData := deriveFiltered (assignIds data) } :=
    ⟨rfl, idInvB_assignIdsFrom 0 data⟩
  rw [loadData]
  split
  · exact ⟨(loadCardSync_filtered _ _).trans
      (hbase.1.trans (congrArg deriveFiltered (loadCardSync_master _ _).symm)),
      by rw [IdInv, loadCardSync_master]; exact hbase.2⟩
  · exact hbase

theorem colInv_markAsLearned (st : AppState) (o : FetchResult) (h : ColInv st) :
    ColInv (markAsLearned st o).state := by
  rw [markAsLearned]
  split
  · exact h
  · rcases hget : st.filteredFlashcardsData.get? st.currentIndex with _ | c
    · simp only [hget]
      exact h
    · simp only [hget]
      rcases o with _ | _ | m
    -- remaining cases handled below
      case ok =>
        rcases hm : st.masterFlashcardsData.get? c.id with _ | mc
        · simp only [hm]
          exact h
        · simp only [hm]
          have hmcid : mc.id = 0 + c.id := idInvB_get? h.2 hm
          have hid2 : IdInv (st.masterFlashcardsData.set c.id { mc with learned := true }) :=
            idInvB_set h.2 (by simpa using hmcid)
          split
          · exact ⟨by rw [loadCardSync_filtered, loadCardSync_master],
              by rw [IdInv, loadCardSync_master]; exact hid2⟩
          · exact ⟨rfl, hid2⟩
      case notOk => exact h
      case rejected => exact h

/-! Claim theorems: collection invariants and markAsLearned. -/

/-- Claim C2: after the initial load and any sequence of `markAsLearned`
calls (any outcomes, successes included), the filtered collection equals
exactly the stable filter of the master collection by `learned == false`;
its cards appear in strictly increasing id order (hence each exactly
once) and none of them is learned. -/
theorem active_is_filter_of_master (data : List Card) (ops : List FetchResult) :
    (applyOps data ops).filteredFlashcardsData
      = deriveFiltered (applyOps data ops).masterFlashcardsData ∧
    List.Pairwise (fun a b => a.id < b.id) (applyOps data ops).filteredFlashcardsData ∧
    ∀ c ∈ (applyOps data ops).filteredFlashcardsData, c.learned = false := by
  have hinv : ColInv (applyOps data ops) := by
    rw [applyOps]
    have hstep : ∀ (l : List FetchResult) (st : AppState), ColInv st →
        ColInv (l.foldl (fun st o => (markAsLearned st o).state) st) := by
      intro l
      induction l with
      | nil => intro st h; exact h
      | cons o rest ih =>
        intro st h
        exact ih _ (colInv_markAsLearned st o h)
    exact hstep ops _ (colInv_loadData data)
  refine ⟨hinv.1, ?_, ?_⟩
  · have hp := idInvB_pairwise hinv.2
    rw [hinv.1, deriveFiltered]
    exact List.Pairwise.sublist (List.filter_sublist _) hp
  · intro c hc
    rw [hinv.1, deriveFiltered] at hc
    have := (List.mem_filter.mp hc).2
    simpa using this

/-- Claim C10: `markAsLearned` on an empty filtered collection is a
complete no-op -- no backend request, no interaction lock, state
untouched. -/
theorem markAsLearned_empty_noop (st : AppState) (o : FetchResult)
    (h : st.filteredFlashcardsData = []) :
    markAsLearned st o = ⟨st, false, false⟩ := by
  rw [markAsLearned]
  rw [if_pos (by rw [h]; rfl)]

/-- Witness for C10 at the initial (empty) state. -/
theorem markAsLearned_empty_noop_witness :
    markAsLearned initialAppState FetchResult.ok = ⟨initialAppState, false, false⟩ :=
  markAsLearned_empty_noop initialAppState FetchResult.ok rfl

/-- Claim C5: when the update-status request fails (non-2xx or
rejected) with a valid cursor, the master collection, the filtered
collection and the cursor are unchanged, an error message is surfaced,
the navigation lock is released, the request was issued, and no
exception escaped. -/
theorem markAsLearned_failure_frame (st : AppState) (outcome : FetchResult) (m : String)
    (h : st.currentIndex < st.filteredFlashcardsData.length)
    (ho : outcome = FetchResult.notOk ∨ outcome = FetchResult.rejected m) :
    (markAsLearned st outcome).state.masterFlashcardsData = st.masterFlashcardsData ∧
    (markAsLearned st outcome).state.filteredFlashcardsData = st.filteredFlashcardsData ∧
    (markAsLearned st outcome).state.currentIndex = st.currentIndex ∧
    (markAsLearned st outcome).state.messageIsError = true ∧
    (markAsLearned st outcome).state.navDisabled = false ∧
    (markAsLearned st outcome).requestIssued = true ∧
    (markAsLearned st outcome).crashed = false := by
  obtain ⟨c, hc⟩ : ∃ c, st.filteredFlashcardsData.get? st.currentIndex = some c :=
    ⟨_, List.get?_eq_get h⟩
  have h0 : ¬ st.filteredFlashcardsData.length = 0 := by omega
  have hc' : st.filteredFlashcardsData[st.currentIndex]? = some c := by
    rw [← List.get?_eq_getElem?]
    exact hc
  rcases ho with ho | ho <;> subst ho <;>
    simp [markAsLearned, h0, hc']

/-- Witness for C5 at the three-card scenario state with a non-2xx
response. -/
theorem markAsLearned_failure_frame_witness :
    (markAsLearned stScenario FetchResult.notOk).state.masterFlashcardsData
        = stScenario.masterFlashcardsData ∧
    (markAsLearned stScenario FetchResult.notOk).state.filteredFlashcardsData
        = stScenario.filteredFlashcardsData ∧
    (markAsLearned stScenario FetchResult.notOk).state.currentIndex
        = stScenario.currentIndex ∧
    (markAsLearned stScenario FetchResult.notOk).state.messageIsError = true ∧
    (markAsLearned stScenario FetchResult.notOk).state.navDisabled = false ∧
    (markAsLearned stScenario FetchResult.notOk).requestIssued = true ∧
    (markAsLearned stScenario FetchResult.notOk).crashed = false :=
  markAsLearned_failure_frame stScenario FetchResult.notOk "" (by decide) (Or.inl rfl)

/-- Claim C4: a successful `markAsLearned` on a valid cursor shrinks the
filtered collection by one, removes that card's id from it, sets the
cursor to `min(previous, k-2)` and loads that card when cards remain,
and shows the completion banner when none remain. -/
theorem markAsLearned_success (st : AppState) (c : Card)
    (hid : IdInv st.masterFlashcardsData)
    (hact : st.filteredFlashcardsData = deriveFiltered st.masterFlashcardsData)
    (hc : st.filteredFlashcardsData.get? st.currentIndex = some c) :
    (markAsLearned st FetchResult.ok).crashed = false ∧
    (markAsLearned st FetchResult.ok).requestIssued = true ∧
    (markAsLearned st FetchResult.ok).state.filteredFlashcardsData.length
      = st.filteredFlashcardsData.length - 1 ∧
    (∀ d ∈ (markAsLearned st FetchResult.ok).state.filteredFlashcardsData, d.id ≠ c.id) ∧
    (0 < st.filteredFlashcardsData.length - 1 →
      (markAsLearned st FetchResult.ok).state.currentIndex
        = min st.currentIndex (st.filteredFlashcardsData.length - 2) ∧
      (markAsLearned st FetchResult.ok).state.message = some "Cargando tarjeta...") ∧
    (st.filteredFlashcardsData.length - 1 = 0 →
      (markAsLearned st FetchResult.ok).state.completionShown = true) := by
  have hcur : st.currentIndex < st.filteredFlashcardsData.length := get?_lt_length hc
  have h0 : ¬ st.filteredFlashcardsData.length = 0 := by omega
  have hc' : st.filteredFlashcardsData[st.currentIndex]? = some c := by
    rw [← List.get?_eq_getElem?]
    exact hc
  have hcmem : c ∈ deriveFiltered st.masterFlashcardsData := by
    rw [← hact]
    exact List.get?_mem hc
  have hcmf := List.mem_filter.mp hcmem
  have hcl : c.learned = false := by simpa using hcmf.2
  obtain ⟨j, hj⟩ := mem_exists_get? hcmf.1
  have hjid : c.id = 0 + j := idInvB_get? hid hj
  have hm : st.masterFlashcardsData.get? c.id = some c := by
    rw [hjid]
    simpa using hj
  have hm' : st.masterFlashcardsData[c.id]? = some c := by
    rw [← List.get?_eq_getElem?]
    exact hm
  have hlenf : (deriveFiltered
      (st.masterFlashcardsData.set c.id { c with learned := true })).length + 1
      = st.filteredFlashcardsData.length := by
    rw [hact]
    exact filter_set_learned_length hm hcl
  have hnid := filter_set_learned_not_mem hid hm
  simp only [markAsLearned, h0, if_false, hc, hm]
  by_cases hpos :
      0 < (deriveFiltered
        (st.masterFlashcardsData.set c.id { c with learned := true })).length
  · rw [if_pos hpos]
    have hne : ¬ (deriveFiltered
        (st.masterFlashcardsData.set c.id { c with learned := true })).length = 0 := by
      omega
    refine ⟨rfl, rfl, ?_, ?_, ?_, ?_⟩
    · rw [loadCardSync_filtered]
      show (deriveFiltered
        (st.masterFlashcardsData.set c.id { c with learned := true })).length
          = st.filteredFlashcardsData.length - 1
      omega
    · intro d hd
      rw [loadCardSync_filtered] at hd
      exact hnid d hd
    · intro hgt
      constructor
      · show (loadCardSync _ _).currentIndex = _
        rw [loadCardSync]
        rw [if_neg hne]
      -- currentIndex is the clamped nextIndex
        show (0 ⊔ if (deriveFiltered
          (st.masterFlashcardsData.set c.id { c with learned := true })).length
            ≤ st.currentIndex then
          (deriveFiltered
            (st.masterFlashcardsData.set c.id { c with learned := true })).length - 1
          else st.currentIndex)
          = min st.currentIndex (st.filteredFlashcardsData.length - 2)
        split <;> omega
      · show (loadCardSync _ _).message = _
        rw [loadCardSync]
        rw [if_neg hne]
    · intro hzero
      omega
  · rw [if_neg hpos]
    refine ⟨rfl, rfl, ?_, ?_, ?_, ?_⟩
    · show (deriveFiltered
        (st.masterFlashcardsData.set c.id { c with learned := true })).length
          = st.filteredFlashcardsData.length - 1
      omega
    · intro d hd
      exact hnid d hd
    · intro hgt
      omega
    · intro _
      rfl

/-- Witness for C4: the spec scenario (three cards, cursor on the
middle one) -- after success the filtered list shrinks to two cards and
the cursor becomes `min 1 1 = 1`. -/
theorem markAsLearned_success_witness :
    (markAsLearned stScenario FetchResult.ok).state.filteredFlashcardsData.length
      = stScenario.filteredFlashcardsData.length - 1 ∧
    (markAsLearned stScenario FetchResult.ok).state.currentIndex
      = min stScenario.currentIndex (stScenario.filteredFlashcardsData.length - 2) := by
  have h := markAsLearned_success stScenario { cardB with id := 1 }
    (by unfold IdInv; decide) (by decide) (by decide)
  exact ⟨h.2.2.1, (h.2.2.2.2.1 (by decide)).1⟩

/-- Claim C6: the delete-confirmation guard is a two-state machine.  A
`deleteImage` click while idle arms the guard and its timer and performs
no destructive action (collections untouched, not the confirming click);
a click while awaiting disarms the timer, returns the guard to idle and
is the confirming click; the 5-second timeout resets the guard to idle
with no action; `loadCard` on a non-empty collection resets the guard
and disarms the timer; and in the concrete two-click run the action
fires exactly once (first click no, second yes, third no again). -/
theorem confirmation_guard_machine :
    (∀ (st : AppState) (o : DeleteOutcome), st.awaitingDeleteConfirmation = false →
      (deleteImage st o).2 = false ∧
      (deleteImage st o).1.awaitingDeleteConfirmation = true ∧
      (deleteImage st o).1.deleteTimerArmed = true ∧
      (deleteImage st o).1.masterFlashcardsData = st.masterFlashcardsData ∧
      (deleteImage st o).1.filteredFlashcardsData = st.filteredFlashcardsData) ∧
    (∀ (st : AppState) (o : DeleteOutcome), st.awaitingDeleteConfirmation = true →
      (deleteImage st o).2 = true ∧
      (deleteImage st o).1.awaitingDeleteConfirmation = false ∧
      (deleteImage st o).1.deleteTimerArmed = false) ∧
    (∀ st : AppState,
      (deleteConfirmationTimeoutFire st).awaitingDeleteConfirmation = false ∧
      (deleteConfirmationTimeoutFire st).deleteTimerArmed = false ∧
      (deleteConfirmationTimeoutFire st).masterFlashcardsData = st.masterFlashcardsData ∧
      (deleteConfirmationTimeoutFire st).filteredFlashcardsData = st.filteredFlashcardsData) ∧
    (∀ (st : AppState) (i : Nat), st.filteredFlashcardsData ≠ [] →
      (loadCardSync st i).awaitingDeleteConfirmation = false ∧
      (loadCardSync st i).deleteTimerArmed = false) ∧
    ((deleteImage stScenario DeleteOutcome.ok).2 = false ∧
      (deleteImage (deleteImage stScenario DeleteOutcome.ok).1 DeleteOutcome.ok).2 = true ∧
      (deleteImage (deleteImage
        (deleteImage stScenario DeleteOutcome.ok).1 DeleteOutcome.ok).1
          DeleteOutcome.ok).2 = false) := by
  refine ⟨?_, ?_, ?_, ?_, by decide⟩
  · intro st o h
    simp [deleteImage, h]
  · intro st o h
    rcases hget : st.filteredFlashcardsData[st.currentIndex]? with _ | c <;>
      rcases o with _ | _ | m <;>
      simp [deleteImage, h, hget, loadCardSync, displayCompletionMessage] <;>
      split <;> simp
  · intro st
    rw [deleteConfirmationTimeoutFire]
    split <;> simp_all
  · intro st i h
    have h0 : ¬ st.filteredFlashcardsData.length = 0 := by
      simpa using fun he => h (List.length_eq_zero.mp he)
    rw [loadCardSync, if_neg h0]
    exact ⟨rfl, rfl⟩

/-- Witness for C6: concrete instances of each guarded transition at the
three-card scenario state. -/
theorem confirmation_guard_machine_witness :
    (deleteImage stScenario DeleteOutcome.ok).2 = false ∧
    (deleteImage { stScenario with awaitingDeleteConfirmation := true }
      DeleteOutcome.ok).2 = true ∧
    (loadCardSync stScenario 0).awaitingDeleteConfirmation = false :=
  ⟨(confirmation_guard_machine.1 stScenario DeleteOutcome.ok rfl).1,
   (confirmation_guard_machine.2.1 { stScenario with awaitingDeleteConfirmation := true }
      DeleteOutcome.ok rfl).1,
   (confirmation_guard_machine.2.2.2.1 stScenario 0 (by decide)).1⟩

/-- Claim C3 (code bug): when the generate-image request succeeds but the
returned image file fails to load, no handler runs (the code installs no
`tempImg.onerror`), so the navigation lock stays engaged, the spinner
stays visible and the card keeps its loading class -- the UI is left
permanently disabled, against the stated error policy.  A rejected fetch
likewise crashes the recovery callback with the lock still engaged. -/
theorem generate_image_load_failure_keeps_lock :
    (generateAndLoadImage uiAfterLoadCardStart
      (GenImageOutcome.okImageLoadFails "/images/x.png")).ui.navDisabled = true ∧
    (generateAndLoadImage uiAfterLoadCardStart
      (GenImageOutcome.okImageLoadFails "/images/x.png")).ui.loadingGifShown = true ∧
    (generateAndLoadImage uiAfterLoadCardStart
      (GenImageOutcome.okImageLoadFails "/images/x.png")).ui.cardLoadingClass = true ∧
    (generateAndLoadImage uiAfterLoadCardStart
      (GenImageOutcome.okImageLoadFails "/images/x.png")).crashed = false ∧
    (generateAndLoadImage uiAfterLoadCardStart
      GenImageOutcome.fetchRejected).crashed = true ∧
    (generateAndLoadImage uiAfterLoadCardStart
      GenImageOutcome.fetchRejected).ui.navDisabled = true ∧
    (generateAndLoadImage uiAfterLoadCardStart
      (GenImageOutcome.httpError "detail")).ui.navDisabled = false := by
  decide

/-- Counterexample for C7: the supersede prologue of `playAudioFromApi`
does not detach all of the previous session's handlers -- starting a new
play while session 0 is active leaves session 0's `onloadedmetadata` and
`onended` handlers attached (only `ontimeupdate` is nulled). -/
theorem play_prologue_keeps_other_handlers :
    (playPrologue activeSessionPlayer).onloadedmetadataHandler = some 0 ∧
    (playPrologue activeSessionPlayer).onendedHandler = some 0 ∧
    (playPrologue activeSessionPlayer).ontimeupdateHandler = none := by
  decide

/-- Claim C7 (amended): the supersede prologue pauses the previous
session's audio (when one was playing), clears the playing flag,
detaches its time-progress handler and removes every highlighted word;
the metadata-loaded and ended handler slots are left holding their
previous values until the new session overwrites them later. -/
theorem play_prologue_effects (p : PlayerState) :
    (playPrologue p).paused = (p.paused || p.isAudioPlaying) ∧
    (playPrologue p).isAudioPlaying = false ∧
    (playPrologue p).ontimeupdateHandler = none ∧
    (playPrologue p).highlightedWords = ∅ ∧
    (playPrologue p).onloadedmetadataHandler = p.onloadedmetadataHandler ∧
    (playPrologue p).onendedHandler = p.onendedHandler := by
  rcases hp : p.isAudioPlaying <;> simp [playPrologue, hp]

/-- Claim C9: the `onloadedmetadata` guard -- with zero word tokens no
time-progress handler is installed (hence no per-word duration is
computed and no highlighting happens), and the same holds when the
audio duration is unavailable or zero. -/
theorem metadata_guard_no_handler :
    (∀ d : Option ℚ, onLoadedMetadata d 0 = none) ∧
    (∀ N : ℕ, onLoadedMetadata none N = none) ∧
    (∀ N : ℕ, onLoadedMetadata (some 0) N = none) := by
  refine ⟨?_, ?_, ?_⟩
  · intro d
    rcases d with _ | d <;> simp [onLoadedMetadata]
  · intro N
    rfl
  · intro N
    simp [onLoadedMetadata]

theorem sessionInv_initial (N : ℕ) : SessionInv N initialSession := by
  simp [SessionInv, initialSession]

theorem timeUpdate_char (N : ℕ) (tpw t : ℚ) (s : SessionState)
    (h : SessionInv N s) :
    timeUpdate N tpw t s =
      ⟨Int.floor ((t + SYNC_OFFSET) / tpw),
       if 0 ≤ Int.floor ((t + SYNC_OFFSET) / tpw) ∧
          Int.floor ((t + SYNC_OFFSET) / tpw) < (N : ℤ) then
         {(Int.floor ((t + SYNC_OFFSET) / tpw)).toNat}
       else ∅⟩ := by
  rw [SessionInv] at h
  simp only [timeUpdate]
  by_cases hne : Int.floor ((t + SYNC_OFFSET) / tpw) ≠ s.lastHighlightedIndex
  · rw [if_pos hne]
    have h1 : (if 0 ≤ s.lastHighlightedIndex ∧ s.lastHighlightedIndex < (N : ℤ) then
        s.highlighted.erase s.lastHighlightedIndex.toNat
      else s.highlighted) = ∅ := by
      split
      · rw [h, if_pos ‹_›]
        exact Finset.erase_singleton _
      · rw [h, if_neg ‹_›]
    rw [h1]
    simp
  · push_neg at hne
    rw [if_neg (by simp [hne])]
    rcases s with ⟨sl, sh⟩
    simp only at hne
    subst hne
    simp only at h
    rw [h]

theorem sessionInv_timeUpdate (N : ℕ) (tpw t : ℚ) (s : SessionState)
    (h : SessionInv N s) : SessionInv N (timeUpdate N tpw t s) := by
  rw [timeUpdate_char N tpw t s h, SessionInv]

theorem sessionInv_runSession (N : ℕ) (tpw : ℚ) (ts : List ℚ) :
    SessionInv N (runSession N tpw ts) := by
  rw [runSession]
  have hstep : ∀ s, SessionInv N s →
      SessionInv N (ts.foldl (fun s t => timeUpdate N tpw t s) s) := by
    induction ts with
    | nil => intro s h; exact h
    | cons t rest ih =>
      intro s h
      exact ih _ (sessionInv_timeUpdate N tpw t s h)
  exact hstep _ (sessionInv_initial N)

theorem sessionInv_card_le_one {N : ℕ} {s : SessionState}
    (h : SessionInv N s) : s.highlighted.card ≤ 1 := by
  rw [SessionInv] at h
  rw [h]
  split <;> simp

/-- Claim C8: within one uninterrupted session the computed word index
is a non-decreasing function of elapsed time, and at every instant at
most one word span carries the highlight. -/
theorem highlight_monotone_and_unique (N : ℕ) (tpw t1 t2 : ℚ) (ts : List ℚ)
    (hp : 0 < tpw) (h12 : t1 ≤ t2) :
    Int.floor ((t1 + SYNC_OFFSET) / tpw) ≤ Int.floor ((t2 + SYNC_OFFSET) / tpw) ∧
    (runSession N tpw ts).highlighted.card ≤ 1 := by
  constructor
  · apply Int.floor_le_floor
    apply div_le_div_of_nonneg_right (by linarith) (le_of_lt hp)
  · exact sessionInv_card_le_one (sessionInv_runSession N tpw ts)

/-- Witness for C8 at a two-word session with unit per-word duration,
notification times 0 and 1. -/
theorem highlight_monotone_and_unique_witness :
    Int.floor (((0:ℚ) + SYNC_OFFSET) / 1) ≤ Int.floor (((1:ℚ) + SYNC_OFFSET) / 1) ∧
    (runSession 2 1 [0]).highlighted.card ≤ 1 :=
  highlight_monotone_and_unique 2 1 0 1 [0] (by norm_num) (by norm_num)

/-- Counterexample for C1: two-word session (N = 2) with duration D = 2
(per-word duration 2/2).  At elapsed time t = 2 the computed index
floor((2 + 0.15) / (2/2)) = 2 is at least N, and the handler removes the
previous highlight without adding any: the highlighted set is empty, not
the clamp-predicted word N-1 = 1. -/
theorem highlight_no_upper_clamp_counterexample :
    (2:ℤ) ≤ Int.floor (((2:ℚ) + SYNC_OFFSET) / ((2:ℚ) / 2)) ∧
    (runSession 2 ((2:ℚ) / 2) [0, 2]).highlighted = ∅ ∧
    (runSession 2 ((2:ℚ) / 2) [0, 2]).highlighted ≠ {2 - 1} := by
  have e1 : Int.floor (((0:ℚ) + SYNC_OFFSET) / ((2:ℚ) / 2)) = 0 := by
    norm_num [SYNC_OFFSET]
  have e2 : Int.floor (((2:ℚ) + SYNC_OFFSET) / ((2:ℚ) / 2)) = 2 := by
    norm_num [SYNC_OFFSET]
  have hrun : runSession 2 ((2:ℚ) / 2) [0, 2]
      = timeUpdate 2 ((2:ℚ) / 2) 2 (timeUpdate 2 ((2:ℚ) / 2) 0 initialSession) := rfl
  have h1 : timeUpdate 2 ((2:ℚ) / 2) 0 initialSession = ⟨0, {0}⟩ := by
    rw [timeUpdate_char 2 ((2:ℚ) / 2) 0 initialSession (sessionInv_initial 2), e1]
    decide
  have hinv1 : SessionInv 2 (⟨0, {0}⟩ : SessionState) := by
    rw [SessionInv]
    decide
  have h2 : timeUpdate 2 ((2:ℚ) / 2) 2 (⟨0, {0}⟩ : SessionState) = ⟨2, ∅⟩ := by
    rw [timeUpdate_char 2 ((2:ℚ) / 2) 2 _ hinv1, e2]
    decide
  refine ⟨by rw [e2], ?_, ?_⟩
  · rw [hrun, h1, h2]
  · rw [hrun, h1, h2]
    decide

/-- Claim C1 (amended): at every time-progress notification with elapsed
time t in a session with N > 0 words and duration D > 0, the computed
index is i = floor((t + 0.15) / (D / N)); for t >= 0 it is nonnegative
(the lower clamp is vacuous), and when i < N word i becomes the unique
highlighted word.  When i >= N, however, the code does not clamp to
N - 1: no word is highlighted at all. -/
theorem highlight_index_after_update (N : ℕ) (D t : ℚ) (ts : List ℚ)
    (hN : 0 < N) (hD : 0 < D) (ht : 0 ≤ t) :
    (Int.floor ((t + SYNC_OFFSET) / (D / (N:ℚ))) < (N:ℤ) →
      (timeUpdate N (D / (N:ℚ)) t (runSession N (D / (N:ℚ)) ts)).highlighted
        = {(Int.floor ((t + SYNC_OFFSET) / (D / (N:ℚ)))).toNat} ∧
      (timeUpdate N (D / (N:ℚ)) t (runSession N (D / (N:ℚ)) ts)).lastHighlightedIndex
        = Int.floor ((t + SYNC_OFFSET) / (D / (N:ℚ)))) ∧
    ((N:ℤ) ≤ Int.floor ((t + SYNC_OFFSET) / (D / (N:ℚ))) →
      (timeUpdate N (D / (N:ℚ)) t (runSession N (D / (N:ℚ)) ts)).highlighted = ∅) := by
  have htpw : (0:ℚ) < D / (N:ℚ) := div_pos hD (by exact_mod_cast hN)
  have hoff : (0:ℚ) ≤ t + SYNC_OFFSET := by
    have hs : (0:ℚ) ≤ SYNC_OFFSET := by norm_num [SYNC_OFFSET]
    linarith
  have h0 : 0 ≤ Int.floor ((t + SYNC_OFFSET) / (D / (N:ℚ))) := by
    apply Int.le_floor.mpr
    simpa using div_nonneg hoff (le_of_lt htpw)
  have hchar := timeUpdate_char N (D / (N:ℚ)) t _
    (sessionInv_runSession N (D / (N:ℚ)) ts)
  have hh : (timeUpdate N (D / (N:ℚ)) t (runSession N (D / (N:ℚ)) ts)).highlighted
      = if 0 ≤ Int.floor ((t + SYNC_OFFSET) / (D / (N:ℚ))) ∧
           Int.floor ((t + SYNC_OFFSET) / (D / (N:ℚ))) < (N:ℤ) then
          {(Int.floor ((t + SYNC_OFFSET) / (D / (N:ℚ)))).toNat}
        else ∅ := by
    rw [hchar]
  have hl : (timeUpdate N (D / (N:ℚ)) t (runSession N (D / (N:ℚ)) ts)).lastHighlightedIndex
      = Int.floor ((t + SYNC_OFFSET) / (D / (N:ℚ))) := by
    rw [hchar]
  refine ⟨fun hlt => ⟨?_, hl⟩, fun hge => ?_⟩
  · rw [hh, if_pos ⟨h0, hlt⟩]
  · rw [hh, if_neg (by omega)]

/-- Witness for C1 (amended) at N = 2, D = 2, t = 0 on a fresh session:
the computed index is in range and becomes the unique highlight. -/
theorem highlight_index_after_update_witness :
    (timeUpdate 2 ((2:ℚ) / ((2:ℕ):ℚ)) 0
        (runSession 2 ((2:ℚ) / ((2:ℕ):ℚ)) [])).highlighted
      = {(Int.floor (((0:ℚ) + SYNC_OFFSET) / ((2:ℚ) / ((2:ℕ):ℚ)))).toNat} ∧
    (timeUpdate 2 ((2:ℚ) / ((2:ℕ):ℚ)) 0
        (runSession 2 ((2:ℚ) / ((2:ℕ):ℚ)) [])).lastHighlightedIndex
      = Int.floor (((0:ℚ) + SYNC_OFFSET) / ((2:ℚ) / ((2:ℕ):ℚ))) :=
  (highlight_index_after_update 2 2 0 [] (by norm_num) (by norm_num)
    (by norm_num)).1 (by norm_num [SYNC_OFFSET])
